import Mathlib

/-!
Shallow embedding of two modules of bitmask_client:

* `src/leap/bitmask/util/keyring_helpers.py` — the credential store selector
  (`canuse`, `_get_keyring_with_fallback`, `has_keyring`, `get_keyring`).
* `src/leap/bitmask/provider/pinned_codigosur.py` — the pinned provider
  record for the domain codigosur.email (`DOMAIN`, `PROVIDER_JSON`,
  `CACERT_PEM`).

Python objects are modelled explicitly: a keyring backend object carries a
class; class membership in a list (the `in` operator on a list of classes)
compares class identities; the environment (what `keyring.get_keyring()`
returns and whether `keyring.backends.SecretService` exists) is a record
passed to every function; Python exceptions are an `Except` layer with the
one exception kind the code handles (`AttributeError`).
-/

/-- A Python class object, identified by its identity `clsId`; `baseIds`
lists the identities of its strict ancestor classes (for the subclass
relation `isSubclassOf`). -/
structure PyClass where
  clsId : Nat
  baseIds : List Nat
deriving DecidableEq, Repr

/-- The class `keyring.backends.file.EncryptedKeyring`. -/
def EncryptedKeyring : PyClass := ⟨0, []⟩

/-- The class `keyring.backends.file.PlaintextKeyring`. -/
def PlaintextKeyring : PyClass := ⟨1, []⟩

/-- The class `keyring.backends.SecretService.Keyring`. -/
def SecretServiceKeyring : PyClass := ⟨2, []⟩

/-- `OBSOLETE_KEYRINGS = [EncryptedKeyring, PlaintextKeyring]`
(keyring_helpers.py lines 29-32). -/
def OBSOLETE_KEYRINGS : List PyClass := [EncryptedKeyring, PlaintextKeyring]

/-- Python class identity (`is`): two class objects are the same class
exactly when their identities agree. -/
def pyIs (c d : PyClass) : Bool := c.clsId == d.clsId

/-- The Python `in` operator on a list of classes: membership by identity
comparison. -/
def pyClassIn (c : PyClass) (l : List PyClass) : Bool := l.any (fun d => pyIs c d)

/-- Python `issubclass`-style relation: a class is a subclass of itself and
of every class among its ancestors. -/
def isSubclassOf (c d : PyClass) : Bool := pyIs c d || c.baseIds.contains d.clsId

/-- A keyring backend object; all the selector inspects is its class
(`kr.__class__`). -/
structure Keyring where
  cls : PyClass
deriving DecidableEq, Repr

/-- `canuse = lambda kr: kr is not None and kr.__class__ not in
OBSOLETE_KEYRINGS` (keyring_helpers.py line 34). -/
def canuse (kr : Option Keyring) : Bool :=
  match kr with
  | none => false
  | some k => !(pyClassIn k.cls OBSOLETE_KEYRINGS)

/-- The host environment the selector queries: the result of
`keyring.get_keyring()` (possibly `None`), and whether the
`keyring.backends.SecretService` backend is available (when it is not,
attribute access raises `AttributeError`). -/
structure Env where
  defaultKeyring : Option Keyring
  secretServiceAvailable : Bool
deriving DecidableEq, Repr

/-- The one Python exception kind this code handles. -/
inductive PyError where
  | attributeError
deriving DecidableEq, Repr

/-- `kr_klass = keyring.backends.SecretService; kr = kr_klass.Keyring()`
(keyring_helpers.py lines 48-49): yields a SecretService backend object when
the environment provides it, raises `AttributeError` otherwise. -/
def secretServiceCtor (env : Env) : Except PyError Keyring :=
  if env.secretServiceAvailable then Except.ok { cls := SecretServiceKeyring }
  else Except.error PyError.attributeError

/-- A `try: body except AttributeError: handler` block. -/
def tryExceptAttr {α : Type} (body : Except PyError α) (handler : Except PyError α) :
    Except PyError α :=
  match body with
  | Except.ok a => Except.ok a
  | Except.error PyError.attributeError => handler

/-- `_get_keyring_with_fallback` (keyring_helpers.py lines 37-55): take the
default keyring; if it is not usable, try to construct the SecretService
backend, on `AttributeError` keep the default (only a warning is logged);
return whatever came out (the logging lines have no effect on the result). -/
def get_keyring_with_fallback (env : Env) : Except PyError (Option Keyring) :=
  let kr := env.defaultKeyring
  if !(canuse kr) then
    tryExceptAttr ((secretServiceCtor env).map (fun k => some k)) (Except.ok kr)
  else
    Except.ok kr

/-- `has_keyring` (keyring_helpers.py lines 58-65). -/
def has_keyring (env : Env) : Except PyError Bool :=
  (get_keyring_with_fallback env).map canuse

/-- `get_keyring` (keyring_helpers.py lines 68-75): `kr if canuse(kr) else
None`. -/
def get_keyring (env : Env) : Except PyError (Option Keyring) :=
  (get_keyring_with_fallback env).map (fun kr => if canuse kr then kr else none)

/-- Closed form of the fallback resolution, used by the helper lemmas. -/
def fallbackResult (env : Env) : Option Keyring :=
  if canuse env.defaultKeyring then env.defaultKeyring
  else if env.secretServiceAvailable then some { cls := SecretServiceKeyring }
  else env.defaultKeyring

theorem fallback_ok (env : Env) :
    get_keyring_with_fallback env = Except.ok (fallbackResult env) := by
  unfold get_keyring_with_fallback fallbackResult secretServiceCtor tryExceptAttr
  cases hc : canuse env.defaultKeyring <;>
    cases hs : env.secretServiceAvailable <;> simp [Except.map, hc, hs]

theorem get_keyring_eq (env : Env) :
    get_keyring env =
      Except.ok (if canuse (fallbackResult env) then fallbackResult env else none) := by
  unfold get_keyring
  rw [fallback_ok]
  rfl

theorem has_keyring_eq (env : Env) :
    has_keyring env = Except.ok (canuse (fallbackResult env)) := by
  unfold has_keyring
  rw [fallback_ok]
  rfl

/-- Claim C1: whenever `get_keyring` returns a non-null handle, the class of
that handle is not a member of `OBSOLETE_KEYRINGS`; in particular no
denylisted default backend is ever handed back. -/
theorem get_keyring_never_obsolete (env : Env) (kr : Keyring)
    (h : get_keyring env = Except.ok (some kr)) :
    pyClassIn kr.cls OBSOLETE_KEYRINGS = false := by
  rw [get_keyring_eq] at h
  split at h
  case isTrue hc =>
    injection h with h
    rw [h] at hc
    simpa [canuse] using hc
  case isFalse hc =>
    injection h with h
    exact absurd h (by simp)

theorem get_keyring_never_obsolete_witness :
    pyClassIn (Keyring.mk ⟨5, []⟩).cls OBSOLETE_KEYRINGS = false :=
  get_keyring_never_obsolete ⟨some ⟨⟨5, []⟩⟩, false⟩ ⟨⟨5, []⟩⟩ rfl

/-- Claim C2: when the default backend query returns null and the
SecretService fallback is unavailable, `has_keyring` returns false and
`get_keyring` returns `None` rather than a handle. -/
theorem null_default_no_fallback_unusable (env : Env)
    (h1 : env.defaultKeyring = none) (h2 : env.secretServiceAvailable = false) :
    has_keyring env = Except.ok false ∧ get_keyring env = Except.ok none := by
  rw [has_keyring_eq, get_keyring_eq]
  simp [fallbackResult, canuse, h1, h2]

theorem null_default_no_fallback_unusable_witness :
    has_keyring ⟨none, false⟩ = Except.ok false ∧
      get_keyring ⟨none, false⟩ = Except.ok none :=
  null_default_no_fallback_unusable ⟨none, false⟩ rfl rfl

/-- Claim C3: when the default backend query yields a non-null handle whose
class is not denylisted, `get_keyring` returns that very handle, and the
result is the same whether or not the SecretService fallback is available
(the fallback is never attempted). -/
theorem good_default_returned_no_fallback (env : Env) (kr : Keyring)
    (h1 : env.defaultKeyring = some kr)
    (h2 : pyClassIn kr.cls OBSOLETE_KEYRINGS = false) :
    get_keyring env = Except.ok (some kr) ∧
      ∀ b : Bool, get_keyring { env with secretServiceAvailable := b } =
        Except.ok (some kr) := by
  constructor
  · rw [get_keyring_eq]
    simp [fallbackResult, canuse, h1, h2]
  · intro b
    rw [get_keyring_eq]
    simp [fallbackResult, canuse, h1, h2]

theorem good_default_returned_no_fallback_witness :
    get_keyring ⟨some ⟨⟨9, []⟩⟩, true⟩ = Except.ok (some ⟨⟨9, []⟩⟩) ∧
      ∀ b : Bool,
        get_keyring { (⟨some ⟨⟨9, []⟩⟩, true⟩ : Env) with secretServiceAvailable := b } =
          Except.ok (some ⟨⟨9, []⟩⟩) :=
  good_default_returned_no_fallback ⟨some ⟨⟨9, []⟩⟩, true⟩ ⟨⟨9, []⟩⟩ rfl (by decide)

/-- Two sequential calls of `get_keyring` against one fixed environment. -/
def callStoreTwice (env : Env) :
    Except PyError (Option Keyring) × Except PyError (Option Keyring) :=
  (get_keyring env, get_keyring env)

/-- Claim C4: under a fixed environment two sequential calls of
`get_keyring` return equal results. -/
theorem get_keyring_idempotent (env : Env) :
    (callStoreTwice env).1 = (callStoreTwice env).2 := rfl

/-- Claim C7: for every environment, `has_keyring` and `get_keyring` return
normally (an `Except.ok` value); in particular the failure of the
SecretService fallback is absorbed and no exception escapes. -/
theorem no_escaping_exception (env : Env) :
    (∃ b, has_keyring env = Except.ok b) ∧
      (∃ r, get_keyring env = Except.ok r) :=
  ⟨⟨_, has_keyring_eq env⟩, ⟨_, get_keyring_eq env⟩⟩

/-- Claim C8: `has_keyring` returns true exactly when `get_keyring` run
against the same environment returns a handle. -/
theorem has_keyring_iff_get_keyring (env : Env) :
    has_keyring env = Except.ok true ↔
      ∃ kr, get_keyring env = Except.ok (some kr) := by
  rw [has_keyring_eq, get_keyring_eq]
  constructor
  · intro h
    have hc : canuse (fallbackResult env) = true := by
      injection h
    cases hfb : fallbackResult env with
    | none => rw [hfb] at hc; simp [canuse] at hc
    | some k =>
      refine ⟨k, ?_⟩
      rw [hfb] at hc
      simp [hc]
  · rintro ⟨kr, h⟩
    split at h
    case isTrue hc => rw [hc]
    case isFalse hc =>
      injection h with h
      exact absurd h (by simp)

/-- Claim C9: denylist membership is by class identity, not by subtyping: a
handle whose class is a strict subclass of a denylisted class but is not
itself one of the two listed classes passes `canuse`, and `get_keyring`
returns it when it is the default backend. -/
theorem denylist_by_class_identity (c : PyClass) (env : Env)
    (_hsub : (isSubclassOf c EncryptedKeyring || isSubclassOf c PlaintextKeyring) = true)
    (hne1 : pyIs c EncryptedKeyring = false)
    (hne2 : pyIs c PlaintextKeyring = false)
    (hd : env.defaultKeyring = some ⟨c⟩) :
    canuse (some ⟨c⟩) = true ∧ get_keyring env = Except.ok (some ⟨c⟩) := by
  have hcu : canuse (some (Keyring.mk c)) = true := by
    simp [canuse, pyClassIn, OBSOLETE_KEYRINGS, hne1, hne2]
  refine ⟨hcu, ?_⟩
  rw [get_keyring_eq]
  simp [fallbackResult, hd, hcu]

theorem denylist_by_class_identity_witness :
    canuse (some ⟨⟨7, [0]⟩⟩) = true ∧
      get_keyring ⟨some ⟨⟨7, [0]⟩⟩, false⟩ = Except.ok (some ⟨⟨7, [0]⟩⟩) :=
  denylist_by_class_identity ⟨7, [0]⟩ ⟨some ⟨⟨7, [0]⟩⟩, false⟩
    (by decide) (by decide) (by decide) rfl

/-- Claim C10: when the default backend is non-null but denylisted and the
SecretService fallback is unavailable, the denylisted handle is discarded:
`get_keyring` returns `None` and `has_keyring` returns false. -/
theorem obsolete_default_discarded (env : Env) (kr : Keyring)
    (h1 : env.defaultKeyring = some kr)
    (h2 : pyClassIn kr.cls OBSOLETE_KEYRINGS = true)
    (h3 : env.secretServiceAvailable = false) :
    get_keyring env = Except.ok none ∧ has_keyring env = Except.ok false := by
  rw [get_keyring_eq, has_keyring_eq]
  simp [fallbackResult, canuse, h1, h2, h3]

theorem obsolete_default_discarded_witness :
    get_keyring ⟨some ⟨⟨0, []⟩⟩, false⟩ = Except.ok none ∧
      has_keyring ⟨some ⟨⟨0, []⟩⟩, false⟩ = Except.ok false :=
  obsolete_default_discarded ⟨some ⟨⟨0, []⟩⟩, false⟩ ⟨⟨0, []⟩⟩ rfl (by decide) rfl

/-!
SHA-256 (FIPS 180-4) over lists of bytes (each a `Nat` below 256), used to
state the fingerprint round-trip property of the pinned certificate.
-/

/-- Two to the power 32, the word modulus. -/
def M32 : Nat := 4294967296

def rotr (n x : Nat) : Nat := (x >>> n) ||| ((x <<< (32 - n)) % M32)

def chF (x y z : Nat) : Nat := (x &&& y) ^^^ ((x ^^^ 4294967295) &&& z)

def majF (x y z : Nat) : Nat := (x &&& y) ^^^ (x &&& z) ^^^ (y &&& z)

def bigSigma0 (x : Nat) : Nat := rotr 2 x ^^^ rotr 13 x ^^^ rotr 22 x

def bigSigma1 (x : Nat) : Nat := rotr 6 x ^^^ rotr 11 x ^^^ rotr 25 x

def smallSigma0 (x : Nat) : Nat := rotr 7 x ^^^ rotr 18 x ^^^ (x >>> 3)

def smallSigma1 (x : Nat) : Nat := rotr 17 x ^^^ rotr 19 x ^^^ (x >>> 10)

/-- The 64 SHA-256 round constants. -/
def sha256K : List Nat :=
  [1116352408, 1899447441, 3049323471, 3921009573, 961987163, 1508970993,
   2453635748, 2870763221, 3624381080, 310598401, 607225278, 1426881987,
   1925078388, 2162078206, 2614888103, 3248222580, 3835390401, 4022224774,
   264347078, 604807628, 770255983, 1249150122, 1555081692, 1996064986,
   2554220882, 2821834349, 2952996808, 3210313671, 3336571891, 3584528711,
   113926993, 338241895, 666307205, 773529912, 1294757372, 1396182291,
   1695183700, 1986661051, 2177026350, 2456956037, 2730485921, 2820302411,
   3259730800, 3345764771, 3516065817, 3600352804, 4094571909, 275423344,
   430227734, 506948616, 659060556, 883997877, 958139571, 1322822218,
   1537002063, 1747873779, 1955562222, 2024104815, 2227730452, 2361852424,
   2428436474, 2756734187, 3204031479, 3329325298]

/-- The initial SHA-256 hash value. -/
def sha256H0 : List Nat :=
  [1779033703, 3144134277, 1013904242, 2773480762,
   1359893119, 2600822924, 528734635, 1541459225]

/-- Group a byte list into big-endian 32-bit words. -/
def toWords : List Nat → List Nat
  | a :: b :: c :: d :: rest => (((a * 256 + b) * 256 + c) * 256 + d) :: toWords rest
  | _ => []

/-- One message-schedule extension step on a reversed word list (the head is
the newest word). -/
def extendStep (w : List Nat) : List Nat :=
  ((smallSigma1 (w.getD 1 0) + w.getD 6 0 + smallSigma0 (w.getD 14 0) +
    w.getD 15 0) % M32) :: w

def extendW : Nat → List Nat → List Nat
  | 0, w => w
  | n + 1, w => extendW n (extendStep w)

/-- The 64-word message schedule of one 64-byte block. -/
def messageSchedule (block : List Nat) : List Nat :=
  (extendW 48 (toWords block).reverse).reverse

/-- The eight working registers of the compression function. -/
structure Regs where
  a : Nat
  b : Nat
  c : Nat
  d : Nat
  e : Nat
  f : Nat
  g : Nat
  h : Nat

def roundStep (s : Regs) (kw : Nat × Nat) : Regs :=
  let t1 := (s.h + bigSigma1 s.e + chF s.e s.f s.g + kw.1 + kw.2) % M32
  let t2 := (bigSigma0 s.a + majF s.a s.b s.c) % M32
  ⟨(t1 + t2) % M32, s.a, s.b, s.c, (s.d + t1) % M32, s.e, s.f, s.g⟩

def processBlock (hv : List Nat) (block : List Nat) : List Nat :=
  let w := messageSchedule block
  let s0 : Regs := ⟨hv.getD 0 0, hv.getD 1 0, hv.getD 2 0, hv.getD 3 0,
    hv.getD 4 0, hv.getD 5 0, hv.getD 6 0, hv.getD 7 0⟩
  let s := (sha256K.zip w).foldl roundStep s0
  [(hv.getD 0 0 + s.a) % M32, (hv.getD 1 0 + s.b) % M32,
   (hv.getD 2 0 + s.c) % M32, (hv.getD 3 0 + s.d) % M32,
   (hv.getD 4 0 + s.e) % M32, (hv.getD 5 0 + s.f) % M32,
   (hv.getD 6 0 + s.g) % M32, (hv.getD 7 0 + s.h) % M32]

def processChunks : Nat → List Nat → List Nat → List Nat
  | 0, hv, _ => hv
  | n + 1, hv, msg => processChunks n (processBlock hv (msg.take 64)) (msg.drop 64)

/-- Tail-recursive list length (keeps evaluation depth flat on the long
byte lists this file hashes). -/
def lenAux : List Nat → Nat → Nat
  | [], n => n
  | _ :: rest, n => lenAux rest (n + 1)

/-- Append the SHA-256 padding: a 128 byte, zeros to 56 mod 64, then the
bit length as eight big-endian bytes. -/
def padMsg (msg : List Nat) : List Nat :=
  let L := lenAux msg 0
  let bitLen := 8 * L
  let zeros := (119 - L % 64) % 64
  List.reverseAux msg.reverse
    (128 :: List.replicate zeros 0 ++
      [(bitLen >>> 56) % 256, (bitLen >>> 48) % 256, (bitLen >>> 40) % 256,
       (bitLen >>> 32) % 256, (bitLen >>> 24) % 256, (bitLen >>> 16) % 256,
       (bitLen >>> 8) % 256, bitLen % 256])

def sha256bytes (msg : List Nat) : List Nat :=
  let padded := padMsg msg
  let hv := processChunks (lenAux padded 0 / 64) sha256H0 padded
  hv.flatMap (fun w => [(w >>> 24) % 256, (w >>> 16) % 256, (w >>> 8) % 256, w % 256])

def hexDigit (n : Nat) : Char := Char.ofNat (if n < 10 then 48 + n else 87 + n)

def bytesToHex (l : List Nat) : String :=
  String.mk (l.flatMap (fun b => [hexDigit (b / 16), hexDigit (b % 16)]))

def sha256hex (msg : List Nat) : String := bytesToHex (sha256bytes msg)

/-!
Base64 and PEM handling, needed to digest the certificate carried by the
PEM text: the fingerprint of a certificate is the SHA-256 of its DER
encoding, the base64 payload between the BEGIN and END marker lines.
-/

def b64Val (c : Char) : Nat :=
  if 65 ≤ c.toNat ∧ c.toNat ≤ 90 then c.toNat - 65
  else if 97 ≤ c.toNat ∧ c.toNat ≤ 122 then c.toNat - 71
  else if 48 ≤ c.toNat ∧ c.toNat ≤ 57 then c.toNat + 4
  else if c = '+' then 62
  else if c = '/' then 63
  else 0

def b64DecodeAux : List Char → List Nat → List Nat
  | c1 :: c2 :: c3 :: c4 :: rest, acc =>
    let n := ((b64Val c1 * 64 + b64Val c2) * 64 + b64Val c3) * 64 + b64Val c4
    if c3 = '=' then b64DecodeAux rest (n / 65536 :: acc)
    else if c4 = '=' then b64DecodeAux rest ((n / 256) % 256 :: n / 65536 :: acc)
    else b64DecodeAux rest (n % 256 :: (n / 256) % 256 :: n / 65536 :: acc)
  | _, acc => acc.reverse

def b64Decode (l : List Char) : List Nat := b64DecodeAux l []

def splitNlAux : List Char → List Char → List (List Char) → List (List Char)
  | [], cur, acc => (cur.reverse :: acc).reverse
  | c :: rest, cur, acc =>
    if c = '\n' then splitNlAux rest [] (cur.reverse :: acc)
    else splitNlAux rest (c :: cur) acc

def splitNl (l : List Char) : List (List Char) := splitNlAux l [] []

def isDashLine (l : List Char) : Bool :=
  match l with
  | '-' :: _ => true
  | _ => false

/-- The DER bytes of a PEM certificate: the base64 payload of every line
between the dashed BEGIN and END markers, decoded. -/
def pemToDer (pem : String) : List Nat :=
  b64Decode (((splitNl pem.data).filter (fun l => !(isDashLine l))).flatten)

/-!
The pinned provider constants of pinned_codigosur.py and the Trust Anchor
Registry lookup over them.
-/

/-- `DOMAIN = "codigosur.email"` (pinned_codigosur.py line 21). -/
def DOMAIN : String := "codigosur.email"

/-- The hex digest literally embedded inside PROVIDER_JSON. -/
def FINGERPRINT_HEX : String :=
  "c2e9313a1ec605ff0952ed43fd90c80808c127b9d2e92810ad8e92d90d24e97d"

/-- The `ca_cert_fingerprint` field of PROVIDER_JSON
(pinned_codigosur.py line 27). -/
def ca_cert_fingerprint : String :=
  "SHA256: c2e9313a1ec605ff0952ed43fd90c80808c127b9d2e92810ad8e92d90d24e97d"

/-- `CACERT_PEM` (pinned_codigosur.py lines 67-98), transcribed line by
line; the Python string carries no trailing newline. -/
def CACERT_PEM : String :=
  String.intercalate "\n"
    ["-----BEGIN CERTIFICATE-----",
     "MIIFezCCA2OgAwIBAgIBATANBgkqhkiG9w0BAQ0FADBQMRIwEAYDVQQKDAlDb2Rp",
     "Z29TdXIxHjAcBgNVBAsMFWh0dHBzOi8vY29kaWdvc3VyLm9yZzEaMBgGA1UEAwwR",
     "Q29kaWdvU3VyIFJvb3QgQ0EwHhcNMTUwNjE0MDAwMDAwWhcNMjUwNjE0MDAwMDAw",
     "WjBQMRIwEAYDVQQKDAlDb2RpZ29TdXIxHjAcBgNVBAsMFWh0dHBzOi8vY29kaWdv",
     "c3VyLm9yZzEaMBgGA1UEAwwRQ29kaWdvU3VyIFJvb3QgQ0EwggIiMA0GCSqGSIb3",
     "DQEBAQUAA4ICDwAwggIKAoICAQDEFn86vdhWnBltc1VbyNr9pjIdtKGWyn8epm7k",
     "F+M4kPKMeSjvBbB++52OjyEK6ADiGcnECCfA/E+5SSUbpm7eoV0w6Se71YPDwZPM",
     "XCA90qzVyu6pf3dtZY0BT3l50lsZbEyM1wF5mzwM1He0+87Z0TMiWf3sxEnZ+o6u",
     "ACRA+TPPzPkHyWtMsHAVafW0jnSh92irtqSYJdXvw47GyPBXkIt6wMHTggUrCX2H",
     "lBHYfbLZVpHgDys84MKmW3n3UxALnYn3/sgg762cFMF9F2xf7uLvOJ6A5SZr6t/C",
     "Unee29wDatNhKqSlCzKTkH1ayle82BVHO2cwtJ1gseHMyGAYC+C3Mf0fD6ySUgcY",
     "ZcNTRxPAK5AcwqtdsWQLPiLE2I8QXLZ1Zh7yBTo5A3O5Qw0HsYQovlIFI5c5p8wT",
     "FAxRz3xvPPNAUFnj8a9/Ls1qGIkNsM1zrhDXr7jC5HS7BcNlM2vG9GnuxXAaeNiW",
     "Gtb5aFTA7qDupSDcmlVjQhnvP9R/yK58Pk2VQeR+PIx2XqLDgty17cpb4IZy40OV",
     "TGqS9x706uz9As6wmgcvk72N0sxZgIL5vpIiiVKiEJu0Yqn4J/oOhBYKJOc5yO1L",
     "Tnnbwulr0r1szbtpPWL0b12idGB32o8CVt6JZBSgvRYV50be82uePzlReEFll8vO",
     "2qC0+QIDAQABo2AwXjAdBgNVHQ4EFgQUIzhMrgL8r92J9U2CvRhnrRQAYQwwDgYD",
     "VR0PAQH/BAQDAgIEMAwGA1UdEwQFMAMBAf8wHwYDVR0jBBgwFoAUIzhMrgL8r92J",
     "9U2CvRhnrRQAYQwwDQYJKoZIhvcNAQENBQADggIBABq/XV2TNItp/C5efnPO7OXA",
     "dIVBhC818Jtc9CJkRxW0rRdZX1ClHvqdlL4GSpwTNKDto+oH6ZId5dtajdouQt5i",
     "Twb2OTzNsvl7zu+sQIHzdVXq97FQqG+KyTlI+yc3O1JOR8jx4LR0Bl3/0A2kCTux",
     "VXxvRIZbDIkgqVzCZTFshPzXjF2StbDe2vmlwKwE6688N26pXlQAF+2AT97KER4I",
     "cLWKrHCDSsJQpNYkTZtGQtsHLNGaw2MHXsxN4HAU5eGtL7S3OfpGne3i8kF2treU",
     "YC7DKtT/Q15PLnkQtnZNM81MhWyY0AQMvpwGL5N8hYBJhXAFilFeBRK15wq6/bdS",
     "fw/V4h8m/mBLk3sg+voV/PdmFCSvWWUKNwtrqkaOphtdYqJ6t2H0ejR6M6cCuTGh",
     "oWfTc85jKeUqCSqpT72WIEIaMBPvT7dnT0yeexi7lesZ/HOB53I9pyV6KuT9pcga",
     "uHiz8foGpf1HEYxrwngr/Y8CcUnHA/TPiG5p02lon2mHIT8tl0+n+iuFtgeKVyuX",
     "vv0S3meOKa5r1IORDdmIwS0GRzQ9BJ2wv6w4/nQeco0oAlC81Y3OLgQwgE4xctbf",
     "VZDJ5s8lxogj7VQQcl/jZx0Qd0TltL6ZwZla4Kv2MvWJBuuWGyX3YtidjgUBuVKK",
     "HuMtwKk9oKTrY/YNX1V9",
     "-----END CERTIFICATE-----"]

/-- A pinned record as the spec describes it: the pinned domain, the
fingerprint field of the service descriptor, and the PEM certificate. -/
structure PinnedRecord where
  domain : String
  caCertFingerprint : String
  caCertificate : String
deriving DecidableEq, Repr

/-- Modelled from the spec: the Trust Anchor Registry operation
`lookup(domain) -> PinnedRecord | NotFound` is not part of src/ (src/ holds
only the pinned constants); per the spec it returns the embedded record on
an exact string match of the pinned domain and a NotFound outcome (`none`)
otherwise, never a partial or default record. -/
def lookup (domain : String) : Option PinnedRecord :=
  if domain = DOMAIN then
    some { domain := DOMAIN, caCertFingerprint := ca_cert_fingerprint,
           caCertificate := CACERT_PEM }
  else none

set_option maxRecDepth 100000 in
/-- Claim C5: lookup of the pinned domain returns the record whose
fingerprint field carries the literally embedded SHA-256 digest, and the
SHA-256 digest of the embedded certificate (the DER bytes carried by the
PEM text) equals that very digest: the two embedded constants agree. -/
theorem codigosur_fingerprint_roundtrip :
    lookup DOMAIN = some ⟨DOMAIN, ca_cert_fingerprint, CACERT_PEM⟩ ∧
      ca_cert_fingerprint = "SHA256: " ++ FINGERPRINT_HEX ∧
      sha256hex (pemToDer CACERT_PEM) = FINGERPRINT_HEX := by
  refine ⟨rfl, rfl, ?_⟩
  decide

/-- Claim C6: matching is by exact, case-sensitive string equality; every
domain other than the pinned one yields NotFound (`none`), never a partial,
default or empty record. -/
theorem lookup_unpinned_none (d : String) (h : d ≠ DOMAIN) :
    lookup d = none := by
  simp [lookup, h]

theorem lookup_unpinned_none_witness : lookup "Codigosur.email" = none :=
  lookup_unpinned_none "Codigosur.email" (by decide)

